import Mathlib

/-!
Shallow embedding of the viewport-motion engine of `flower-power`
(`src/hooks/useCanvasMovement.ts` and `src/lib/config.ts`), over the
rationals. Mutable hook-local variables become fields of `CanvasState`;
the per-frame physics functions become pure state transformers returning
the updated state together with their settled flag; DOM inputs (container
element size, event target interactivity, pointer coordinates) become
explicit arguments. Decimal literals of the source are written as exact
fractions.
-/

namespace FlowerPower

/-- Physics presets of `config.ts` (`BouncinessPreset`). -/
inductive BouncinessPreset
  | rigid
  | default
  | fluid
deriving DecidableEq

/-- The eight spring/friction constants of a preset (`physicsProfiles` entries). -/
structure PhysicsProfile where
  panFriction : ℚ
  panLerpFactor : ℚ
  snapBackStiffness : ℚ
  rubberBandStiffness : ℚ
  zoomFriction : ℚ
  zoomLerpFactor : ℚ
  zoomSnapBackStiffness : ℚ
  pinchRubberBandStiffness : ℚ
deriving DecidableEq

/-- The `physicsProfiles` table of `config.ts`. -/
def physicsProfiles : BouncinessPreset → PhysicsProfile
  | .rigid =>
    { panFriction := 85/100
      panLerpFactor := 25/100
      snapBackStiffness := 10/100
      rubberBandStiffness := 98/100
      zoomFriction := 85/100
      zoomLerpFactor := 20/100
      zoomSnapBackStiffness := 10/100
      pinchRubberBandStiffness := 90/100 }
  | .default =>
    { panFriction := 92/100
      panLerpFactor := 15/100
      snapBackStiffness := 5/100
      rubberBandStiffness := 85/100
      zoomFriction := 92/100
      zoomLerpFactor := 15/100
      zoomSnapBackStiffness := 5/100
      pinchRubberBandStiffness := 25/100 }
  | .fluid =>
    { panFriction := 95/100
      panLerpFactor := 10/100
      snapBackStiffness := 3/100
      rubberBandStiffness := 75/100
      zoomFriction := 95/100
      zoomLerpFactor := 10/100
      zoomSnapBackStiffness := 3/100
      pinchRubberBandStiffness := 15/100 }

/-- The `worldSize` record `{ width, height }`. -/
structure WorldSize where
  width : ℚ
  height : ℚ
deriving DecidableEq

/-- User options of `CanvasOptions` (`config.ts`); absent fields are `none`.
The background image is represented by its `size` field only — its `src`
string plays no role in the motion engine. -/
structure CanvasOptions where
  bounciness : Option BouncinessPreset := none
  worldSize : Option WorldSize := none
  minScale : Option ℚ := none
  maxScale : Option ℚ := none
  wheelSensitivity : Option ℚ := none
  backgroundImageSize : Option ℚ := none

/-- The resolved configuration returned by `createMovementConfig`. -/
structure MovementConfig where
  worldSize : WorldSize
  minScale : ℚ
  maxScale : ℚ
  wheelSensitivity : ℚ
  initialBgSize : ℚ
  physics : PhysicsProfile
deriving DecidableEq

/-- Function `createMovementConfig` of `config.ts`: merge options with defaults. -/
def createMovementConfig (options : CanvasOptions) : MovementConfig :=
  { worldSize := options.worldSize.getD { width := 6000, height := 6000 }
    minScale := options.minScale.getD (1/2)
    maxScale := options.maxScale.getD 2
    wheelSensitivity := options.wheelSensitivity.getD (1/10000)
    initialBgSize := options.backgroundImageSize.getD 500
    physics := physicsProfiles (options.bounciness.getD .default) }

/-- The mutable hook-local variables of `useCanvasMovement`, as one record.
`isDragging`/`isPinching` are the two reactive signals; the rest are the
plain `let` variables of the hook. -/
structure CanvasState where
  isDragging : Bool
  isPinching : Bool
  scale : ℚ
  targetScale : ℚ
  scaleVelocity : ℚ
  translateX : ℚ
  translateY : ℚ
  targetX : ℚ
  targetY : ℚ
  velocityX : ℚ
  velocityY : ℚ
  startX : ℚ
  startY : ℚ
  lastTranslateX : ℚ
  lastTranslateY : ℚ
  lastPinchDist : Option ℚ
  lastZoomFocalX : ℚ
  lastZoomFocalY : ℚ
deriving DecidableEq

/-- The allowed translation rectangle returned by `getViewportBounds`. -/
structure Bounds where
  minX : ℚ
  maxX : ℚ
  minY : ℚ
  maxY : ℚ
deriving DecidableEq

/-- Function `getViewportBounds` of `useCanvasMovement.ts`. The container element is
modelled as `Option (ℚ × ℚ)`: `none` when `props.container()` is undefined,
`some (clientWidth, clientHeight)` otherwise. `scale` is the hook's current
scale variable. -/
def getViewportBounds (cfg : MovementConfig) (container : Option (ℚ × ℚ))
    (scale : ℚ) : Bounds :=
  match container with
  | none => { minX := 0, maxX := 0, minY := 0, maxY := 0 }
  | some (viewportW, viewportH) =>
    let scaledContentW := cfg.worldSize.width * scale
    let scaledContentH := cfg.worldSize.height * scale
    let worldOriginX := -cfg.worldSize.width / 2
    let worldOriginY := -cfg.worldSize.height / 2
    let minX0 := (viewportW - scaledContentW) / 2 - worldOriginX * scale
    let xs : ℚ × ℚ :=
      if scaledContentW > viewportW then
        (viewportW - (worldOriginX + cfg.worldSize.width) * scale,
          -worldOriginX * scale)
      else (minX0, minX0)
    let minY0 := (viewportH - scaledContentH) / 2 - worldOriginY * scale
    let ys : ℚ × ℚ :=
      if scaledContentH > viewportH then
        (viewportH - (worldOriginY + cfg.worldSize.height) * scale,
          -worldOriginY * scale)
      else (minY0, minY0)
    { minX := xs.1, maxX := xs.2, minY := ys.1, maxY := ys.2 }

/-- The clamped translation of an idle pan step, X axis:
`Math.max(bounds.minX, Math.min(bounds.maxX, translateX))`. -/
def panClampedX (cfg : MovementConfig) (container : Option (ℚ × ℚ))
    (st : CanvasState) : ℚ :=
  let bounds := getViewportBounds cfg container st.scale
  max bounds.minX (min bounds.maxX st.translateX)

/-- The clamped translation of an idle pan step, Y axis. -/
def panClampedY (cfg : MovementConfig) (container : Option (ℚ × ℚ))
    (st : CanvasState) : ℚ :=
  let bounds := getViewportBounds cfg container st.scale
  max bounds.minY (min bounds.maxY st.translateY)

/-- The X velocity after the spring force and friction of an idle pan step:
`(velocityX + forceX) * panFriction` with
`forceX = (clampedX - translateX) * snapBackStiffness`. -/
def panStepVelX (cfg : MovementConfig) (container : Option (ℚ × ℚ))
    (st : CanvasState) : ℚ :=
  (st.velocityX + (panClampedX cfg container st - st.translateX)
      * cfg.physics.snapBackStiffness) * cfg.physics.panFriction

/-- The Y velocity after the spring force and friction of an idle pan step. -/
def panStepVelY (cfg : MovementConfig) (container : Option (ℚ × ℚ))
    (st : CanvasState) : ℚ :=
  (st.velocityY + (panClampedY cfg container st - st.translateY)
      * cfg.physics.snapBackStiffness) * cfg.physics.panFriction

/-- Function `updatePanPhysics` of `useCanvasMovement.ts`: one pan-physics frame.
Returns the updated state together with the settled flag the source
returns (`false` while dragging). -/
def updatePanPhysics (cfg : MovementConfig) (container : Option (ℚ × ℚ))
    (st : CanvasState) : CanvasState × Bool :=
  if st.isDragging then
    let dx := (st.targetX - st.translateX) * cfg.physics.panLerpFactor
    let dy := (st.targetY - st.translateY) * cfg.physics.panLerpFactor
    ({ st with
        translateX := st.translateX + dx
        translateY := st.translateY + dy
        velocityX := dx
        velocityY := dy }, false)
  else
    let clampedX := panClampedX cfg container st
    let clampedY := panClampedY cfg container st
    let vX := panStepVelX cfg container st
    let vY := panStepVelY cfg container st
    let tX := st.translateX + vX
    let tY := st.translateY + vY
    let isSettled : Bool :=
      decide (|vX| < 1/100) && decide (|vY| < 1/100) &&
      decide (|clampedX - tX| < 1/2) && decide (|clampedY - tY| < 1/2)
    if isSettled then
      ({ st with
          translateX := clampedX
          translateY := clampedY
          velocityX := vX
          velocityY := vY }, true)
    else
      ({ st with
          translateX := tX
          translateY := tY
          velocityX := vX
          velocityY := vY }, false)

/-- The scale velocity after the branch on `isPinching()` in
`updateZoomPhysics`: while pinching it is the direct-follow
`(currentTargetScale - scale) * zoomLerpFactor` with `currentTargetScale`
the rubber-banded target; otherwise the integrated
`(scaleVelocity + scaleForce) * zoomFriction`. -/
def zoomStepVelocity (cfg : MovementConfig) (st : CanvasState) : ℚ :=
  if st.isPinching then
    let currentTargetScale :=
      if st.targetScale < cfg.minScale then
        cfg.minScale
          - (cfg.minScale - st.targetScale) * cfg.physics.pinchRubberBandStiffness
      else if st.targetScale > cfg.maxScale then
        cfg.maxScale
          + (st.targetScale - cfg.maxScale) * cfg.physics.pinchRubberBandStiffness
      else st.targetScale
    (currentTargetScale - st.scale) * cfg.physics.zoomLerpFactor
  else
    let clampedScale := max cfg.minScale (min cfg.maxScale st.scale)
    let scaleForce := (clampedScale - st.scale) * cfg.physics.zoomSnapBackStiffness
    (st.scaleVelocity + scaleForce) * cfg.physics.zoomFriction

/-- The settled flag of a zoom step: `false` while pinching (the local
`isSettled` is only assigned in the non-pinching branch of the source). -/
def zoomStepSettled (cfg : MovementConfig) (st : CanvasState) : Bool :=
  if st.isPinching then false
  else
    let clampedScale := max cfg.minScale (min cfg.maxScale st.scale)
    decide (|zoomStepVelocity cfg st| < 1/10000) &&
    decide (|clampedScale - st.scale| < 1/1000)

/-- Function `updateZoomPhysics` of `useCanvasMovement.ts`: one zoom-physics frame.
After the branch-specific velocity update, when the velocity is above the
dead-band or a pinch is live, the scale integrates the velocity and the
translation (and the pan target with it) is re-anchored around
`lastZoomFocalPoint`; on settle, the scale snaps into `[minScale,maxScale]`
and the scale velocity zeroes. -/
def updateZoomPhysics (cfg : MovementConfig) (st : CanvasState) :
    CanvasState × Bool :=
  let sv := zoomStepVelocity cfg st
  let isSettled := zoomStepSettled cfg st
  let st1 :=
    if |sv| > 1/100000 ∨ st.isPinching = true then
      let oldScale := st.scale
      let newScale := st.scale + sv
      let scaleRatio := newScale / oldScale
      let newTranslateX :=
        st.lastZoomFocalX - (st.lastZoomFocalX - st.translateX) * scaleRatio
      let newTranslateY :=
        st.lastZoomFocalY - (st.lastZoomFocalY - st.translateY) * scaleRatio
      { st with
          scale := newScale
          scaleVelocity := sv
          translateX := newTranslateX
          translateY := newTranslateY
          targetX := newTranslateX
          targetY := newTranslateY }
    else { st with scaleVelocity := sv }
  let st2 :=
    if isSettled then
      { st1 with
          scale := max cfg.minScale (min cfg.maxScale st1.scale)
          scaleVelocity := 0 }
    else st1
  (st2, isSettled)

/-- The `applyRubberBand` closure of `onMouseMove`, with the stiffness it
captures (`physics.rubberBandStiffness`) made explicit. -/
def applyRubberBand (stiffness raw lo hi : ℚ) : ℚ :=
  if raw < lo then lo + (raw - lo) * (1 - stiffness)
  else if raw > hi then hi + (raw - hi) * (1 - stiffness)
  else raw

/-- Handler `onMouseMove` of `useCanvasMovement.ts`. The event is modelled by
the cursor coordinates. -/
def onMouseMove (cfg : MovementConfig) (container : Option (ℚ × ℚ))
    (st : CanvasState) (clientX clientY : ℚ) : CanvasState :=
  if st.isDragging = false then st
  else
    let deltaX := clientX - st.startX
    let deltaY := clientY - st.startY
    let rawTargetX := st.lastTranslateX + deltaX
    let rawTargetY := st.lastTranslateY + deltaY
    let bounds := getViewportBounds cfg container st.scale
    { st with
        targetX := applyRubberBand cfg.physics.rubberBandStiffness
          rawTargetX bounds.minX bounds.maxX
        targetY := applyRubberBand cfg.physics.rubberBandStiffness
          rawTargetY bounds.minY bounds.maxY }

/-- Handler `onMouseDown` of `useCanvasMovement.ts`. The event is modelled by
the button number, whether the target matches an interactive-exclusion
region (`data-interactive`), and the cursor coordinates. -/
def onMouseDown (st : CanvasState) (button : ℕ) (interactive : Bool)
    (clientX clientY : ℚ) : CanvasState :=
  if button ≠ 0 then st
  else if interactive then st
  else
    { st with
        isDragging := true
        isPinching := false
        startX := clientX
        startY := clientY
        lastTranslateX := st.translateX
        lastTranslateY := st.translateY
        velocityX := 0
        velocityY := 0
        scaleVelocity := 0 }

/-- Handler `onMouseUp` of `useCanvasMovement.ts`. -/
def onMouseUp (st : CanvasState) : CanvasState :=
  { st with isDragging := false }

/-- Handler `onWheel` of `useCanvasMovement.ts`. The event is modelled by
whether the target is interactive, `deltaY`, and the cursor coordinates; the
`preventDefault` and `startAnimation` calls have no state effect here. -/
def onWheel (cfg : MovementConfig) (st : CanvasState) (interactive : Bool)
    (deltaY clientX clientY : ℚ) : CanvasState :=
  if interactive then st
  else
    let delta := deltaY * -cfg.wheelSensitivity
    { st with
        lastZoomFocalX := clientX
        lastZoomFocalY := clientY
        scaleVelocity := st.scaleVelocity + delta }

/-- Handler `onTouchStart` of `useCanvasMovement.ts`. Touches are the list of
`(clientX, clientY)` pairs; `Math.hypot` of the two first touch points is
irrational in general, so the embedding receives the hypotenuse computation
as a function argument. A touch count other than 1 or 2 falls through both
branches (only `startAnimation` runs in the source). -/
def onTouchStart (hypot : ℚ → ℚ → ℚ) (st : CanvasState) (interactive : Bool)
    (touches : List (ℚ × ℚ)) : CanvasState :=
  if interactive then st
  else
    match touches with
    | [t] =>
      { st with
          isDragging := true
          isPinching := false
          startX := t.1
          startY := t.2
          lastTranslateX := st.translateX
          lastTranslateY := st.translateY
          velocityX := 0
          velocityY := 0
          scaleVelocity := 0 }
    | [t1, t2] =>
      { st with
          isDragging := false
          isPinching := true
          lastPinchDist := some (hypot (t1.1 - t2.1) (t1.2 - t2.2))
          targetScale := st.scale }
    | _ => st

/-- The configuration the hook resolves when no options are passed
(`worldSize 6000×6000`, `minScale 0.5`, `maxScale 2`, sensitivity `0.0001`,
and the default preset). -/
def defaultConfig : MovementConfig := createMovementConfig {}

/-- The hook-local variables at their initial values (`scale = 1`, all other
numeric state `0`, no gesture live). -/
def initialState : CanvasState :=
  { isDragging := false
    isPinching := false
    scale := 1
    targetScale := 1
    scaleVelocity := 0
    translateX := 0
    translateY := 0
    targetX := 0
    targetY := 0
    velocityX := 0
    velocityY := 0
    startX := 0
    startY := 0
    lastTranslateX := 0
    lastTranslateY := 0
    lastPinchDist := none
    lastZoomFocalX := 0
    lastZoomFocalY := 0 }

/-- A live pinch with an in-range target scale and a focal point away from
the current translation, used to instantiate the zoom-step theorems. -/
def pinchWitnessState : CanvasState :=
  { initialState with
      isPinching := true
      translateX := 40
      translateY := 30
      lastZoomFocalX := 400
      lastZoomFocalY := 300
      targetScale := 3/2 }

/-- A live pinch whose target scale `0.4` lies below the default
`minScale = 0.5`, so the pinch rubber band is engaged. -/
def pinchBandState : CanvasState :=
  { initialState with isPinching := true, targetScale := 2/5 }

/-- An idle in-bounds state with a small residual velocity, small enough
that the very next idle pan step settles. -/
def settleWitnessState : CanvasState :=
  { initialState with velocityX := 1/200 }

/-- A state with a live single-pointer drag. -/
def panningState : CanvasState :=
  { initialState with isDragging := true }

/-- An idle state whose pan target `100` differs from its translation `0`,
as left behind by a released drag whose inertia kept moving. -/
def staleTargetState : CanvasState :=
  { initialState with targetX := 100 }

/-- An idle state translated away from the origin, used to probe the
behaviour when the container element is unavailable. -/
def offsetState : CanvasState :=
  { initialState with translateX := 100 }

/-- C1: per axis with `scaledSize = axisWorldSize * scale` and
`worldOrigin = -axisWorldSize/2`, `getViewportBounds` centers
(`min = max = (viewportSize - scaledSize)/2 - worldOrigin*scale`) when
`scaledSize <= viewportSize`, and otherwise returns
`max = -worldOrigin*scale` and
`min = viewportSize - (worldOrigin + axisWorldSize)*scale`; for viewport
width 800, world width 6000, scale 1 this gives `minX = -2200`,
`maxX = 3000`. -/
theorem C1_bounds_per_axis (cfg : MovementConfig) (W H s : ℚ) :
    ((cfg.worldSize.width * s ≤ W →
      (getViewportBounds cfg (some (W, H)) s).minX
          = (W - cfg.worldSize.width * s) / 2 - (-cfg.worldSize.width / 2) * s ∧
      (getViewportBounds cfg (some (W, H)) s).maxX
          = (getViewportBounds cfg (some (W, H)) s).minX) ∧
    (W < cfg.worldSize.width * s →
      (getViewportBounds cfg (some (W, H)) s).maxX
          = -(-cfg.worldSize.width / 2) * s ∧
      (getViewportBounds cfg (some (W, H)) s).minX
          = W - (-cfg.worldSize.width / 2 + cfg.worldSize.width) * s)) ∧
    ((cfg.worldSize.height * s ≤ H →
      (getViewportBounds cfg (some (W, H)) s).minY
          = (H - cfg.worldSize.height * s) / 2 - (-cfg.worldSize.height / 2) * s ∧
      (getViewportBounds cfg (some (W, H)) s).maxY
          = (getViewportBounds cfg (some (W, H)) s).minY) ∧
    (H < cfg.worldSize.height * s →
      (getViewportBounds cfg (some (W, H)) s).maxY
          = -(-cfg.worldSize.height / 2) * s ∧
      (getViewportBounds cfg (some (W, H)) s).minY
          = H - (-cfg.worldSize.height / 2 + cfg.worldSize.height) * s)) ∧
    ((getViewportBounds (createMovementConfig {}) (some (800, 600)) 1).minX
        = -2200 ∧
     (getViewportBounds (createMovementConfig {}) (some (800, 600)) 1).maxX
        = 3000) := by
  refine ⟨⟨?_, ?_⟩, ⟨?_, ?_⟩, ?_, ?_⟩
  · intro h
    simp only [getViewportBounds]
    split_ifs with h1 <;> simp_all <;> linarith
  · intro h
    simp only [getViewportBounds]
    split_ifs with h1 <;> simp_all <;> linarith
  · intro h
    simp only [getViewportBounds]
    split_ifs with h1 <;> simp_all <;> linarith
  · intro h
    simp only [getViewportBounds]
    split_ifs with h1 <;> simp_all <;> linarith
  · norm_num [getViewportBounds, createMovementConfig]
  · norm_num [getViewportBounds, createMovementConfig]

/-- C1 witness: the covering branch of the X axis at viewport 800×600,
world 6000×6000, scale 1. -/
theorem C1_witness :
    (getViewportBounds (createMovementConfig {}) (some (800, 600)) 1).maxX
        = -(-(createMovementConfig {}).worldSize.width / 2) * 1 ∧
    (getViewportBounds (createMovementConfig {}) (some (800, 600)) 1).minX
        = 800 - (-(createMovementConfig {}).worldSize.width / 2
            + (createMovementConfig {}).worldSize.width) * 1 :=
  (C1_bounds_per_axis (createMovementConfig {}) 800 600 1).1.2
    (by norm_num [createMovementConfig])

/-- C2: focal invariance of the zoom re-anchoring. In any zoom step that
runs the scale update (velocity above the dead-band or pinching) and does
not settle, with nonzero old scale, the world point that sat under the
focal screen coordinate (`(focal - translate)/oldScale` under the mapping
`screen = translate + world * scale`) maps to exactly the focal coordinate
again after the step, exactly over ℚ. -/
theorem C2_focal_invariance (cfg : MovementConfig) (st : CanvasState)
    (hs : st.scale ≠ 0)
    (hcond : |zoomStepVelocity cfg st| > 1/100000 ∨ st.isPinching = true)
    (hns : zoomStepSettled cfg st = false) :
    (updateZoomPhysics cfg st).1.translateX
        + ((st.lastZoomFocalX - st.translateX) / st.scale)
          * (updateZoomPhysics cfg st).1.scale = st.lastZoomFocalX ∧
    (updateZoomPhysics cfg st).1.translateY
        + ((st.lastZoomFocalY - st.translateY) / st.scale)
          * (updateZoomPhysics cfg st).1.scale = st.lastZoomFocalY := by
  simp only [updateZoomPhysics, hns, Bool.false_eq_true, if_false, if_pos hcond]
  constructor <;> field_simp <;> ring

/-- C2 witness: the focal invariance instantiated at a concrete pinch step
from scale 1 toward target scale 1.5 with focal point (400, 300). -/
theorem C2_witness :
    (updateZoomPhysics (createMovementConfig {}) pinchWitnessState).1.translateX
        + ((pinchWitnessState.lastZoomFocalX - pinchWitnessState.translateX)
            / pinchWitnessState.scale)
          * (updateZoomPhysics (createMovementConfig {}) pinchWitnessState).1.scale
        = pinchWitnessState.lastZoomFocalX ∧
    (updateZoomPhysics (createMovementConfig {}) pinchWitnessState).1.translateY
        + ((pinchWitnessState.lastZoomFocalY - pinchWitnessState.translateY)
            / pinchWitnessState.scale)
          * (updateZoomPhysics (createMovementConfig {}) pinchWitnessState).1.scale
        = pinchWitnessState.lastZoomFocalY :=
  C2_focal_invariance (createMovementConfig {}) pinchWitnessState
    (by norm_num [pinchWitnessState, initialState])
    (Or.inr rfl)
    (by simp [zoomStepSettled, pinchWitnessState, initialState])

/-- C3 (amended): a non-panning pan step reports settled exactly when the
post-friction velocities are below 0.01 and the distances to the clamped
position (measured from the integrated translation) are below 0.5, and on
settle the translation snaps exactly to the clamped position while both
velocity components are left at their post-friction values — the source
does not zero them. -/
theorem C3_pan_settle (cfg : MovementConfig) (container : Option (ℚ × ℚ))
    (st : CanvasState) (hd : st.isDragging = false) :
    ((updatePanPhysics cfg container st).2 = true ↔
      (|panStepVelX cfg container st| < 1/100 ∧
       |panStepVelY cfg container st| < 1/100 ∧
       |panClampedX cfg container st
          - (st.translateX + panStepVelX cfg container st)| < 1/2 ∧
       |panClampedY cfg container st
          - (st.translateY + panStepVelY cfg container st)| < 1/2)) ∧
    ((updatePanPhysics cfg container st).2 = true →
      (updatePanPhysics cfg container st).1.translateX
          = panClampedX cfg container st ∧
      (updatePanPhysics cfg container st).1.translateY
          = panClampedY cfg container st ∧
      (updatePanPhysics cfg container st).1.velocityX
          = panStepVelX cfg container st ∧
      (updatePanPhysics cfg container st).1.velocityY
          = panStepVelY cfg container st) := by
  simp only [updatePanPhysics, hd, Bool.false_eq_true, if_false]
  split_ifs with hset
  · simp only [Bool.and_eq_true, decide_eq_true_eq] at hset
    refine ⟨?_, fun _ => ⟨rfl, rfl, rfl, rfl⟩⟩
    constructor
    · intro _
      exact ⟨hset.1.1.1, hset.1.1.2, hset.1.2, hset.2⟩
    · intro _
      rfl
  · simp only [Bool.and_eq_true, decide_eq_true_eq] at hset
    refine ⟨?_, fun h => absurd h (by simp)⟩
    constructor
    · intro h
      exact absurd h (by simp)
    · intro hconds
      exact absurd ⟨⟨⟨hconds.1, hconds.2.1⟩, hconds.2.2.1⟩, hconds.2.2.2⟩ hset

/-- C3 counterexample: an idle step from an in-bounds state with residual
velocity `0.005` settles, yet the velocity afterwards is `0.0046`, not
zero — refuting the claim that settle zeroes the velocity components. -/
theorem C3_counterexample :
    (updatePanPhysics defaultConfig (some (800, 600)) settleWitnessState).2
        = true ∧
    (updatePanPhysics defaultConfig (some (800, 600))
        settleWitnessState).1.velocityX ≠ 0 := by
  constructor
  · norm_num [updatePanPhysics, panStepVelX, panStepVelY, panClampedX,
      panClampedY, getViewportBounds, settleWitnessState, initialState,
      defaultConfig, createMovementConfig, physicsProfiles, abs_lt]
  · norm_num [updatePanPhysics, panStepVelX, panStepVelY, panClampedX,
      panClampedY, getViewportBounds, settleWitnessState, initialState,
      defaultConfig, createMovementConfig, physicsProfiles, abs_lt]

/-- C3 witness: the settle criterion instantiated at the concrete idle
state with residual velocity `0.005`. -/
theorem C3_witness :
    (updatePanPhysics defaultConfig (some (800, 600)) settleWitnessState).2
        = true :=
  ((C3_pan_settle defaultConfig (some (800, 600))
      settleWitnessState rfl).1).mpr
    (by norm_num [panStepVelX, panStepVelY, panClampedX, panClampedY,
      getViewportBounds, settleWitnessState, initialState, defaultConfig,
      createMovementConfig, physicsProfiles, abs_lt])

/-- C4 (amended): while pinching, an out-of-range target scale is
rubber-banded as `bound + (targetScale - bound) * pinchRubberBandStiffness`
— the source multiplies the overflow by the stiffness itself, not by
`1 - pinchRubberBandStiffness` — and the scale velocity becomes
`(bandedTarget - scale) * zoomLerpFactor`. -/
theorem C4_pinch_rubber_band (cfg : MovementConfig) (st : CanvasState)
    (hp : st.isPinching = true) :
    (st.targetScale < cfg.minScale →
      (updateZoomPhysics cfg st).1.scaleVelocity =
        ((cfg.minScale + (st.targetScale - cfg.minScale)
            * cfg.physics.pinchRubberBandStiffness) - st.scale)
          * cfg.physics.zoomLerpFactor) ∧
    (¬ st.targetScale < cfg.minScale → cfg.maxScale < st.targetScale →
      (updateZoomPhysics cfg st).1.scaleVelocity =
        ((cfg.maxScale + (st.targetScale - cfg.maxScale)
            * cfg.physics.pinchRubberBandStiffness) - st.scale)
          * cfg.physics.zoomLerpFactor) := by
  have hset : zoomStepSettled cfg st = false := by
    simp [zoomStepSettled, hp]
  have hor : |zoomStepVelocity cfg st| > 1/100000 ∨ st.isPinching = true :=
    Or.inr hp
  simp only [updateZoomPhysics, hset, Bool.false_eq_true, if_false, if_pos hor]
  constructor
  · intro h
    simp only [zoomStepVelocity, hp, if_true, if_pos h]
    ring
  · intro h1 h2
    simp only [zoomStepVelocity, hp, if_true, if_neg h1, if_pos h2]

/-- C4 counterexample: at the default preset (stiffness 0.25), a pinch with
target scale 0.4 below `minScale = 0.5` produces scale velocity
`(0.475 - 1) * 0.15`, not the `(0.425 - 1) * 0.15` that the claimed
`1 - stiffness` overflow factor would give. -/
theorem C4_counterexample :
    (updateZoomPhysics defaultConfig pinchBandState).1.scaleVelocity ≠
      ((defaultConfig.minScale
          + (pinchBandState.targetScale - defaultConfig.minScale)
            * (1 - defaultConfig.physics.pinchRubberBandStiffness))
        - pinchBandState.scale) * defaultConfig.physics.zoomLerpFactor := by
  norm_num [updateZoomPhysics, zoomStepVelocity, zoomStepSettled,
    pinchBandState, initialState, defaultConfig, createMovementConfig,
    physicsProfiles, abs_lt]

/-- C4 witness: the under-minimum rubber band instantiated at the concrete
pinch with target scale 0.4. -/
theorem C4_witness :
    (updateZoomPhysics defaultConfig pinchBandState).1.scaleVelocity =
      ((defaultConfig.minScale
          + (pinchBandState.targetScale - defaultConfig.minScale)
            * defaultConfig.physics.pinchRubberBandStiffness)
        - pinchBandState.scale) * defaultConfig.physics.zoomLerpFactor :=
  (C4_pinch_rubber_band defaultConfig pinchBandState rfl).1
    (by norm_num [pinchBandState, initialState, defaultConfig,
      createMovementConfig, physicsProfiles])

/-- C5 (amended): a wheel event whose target is not inside an
interactive-exclusion region is accepted in every gesture state — including
during an active pinch — and never changes the gesture state; it sets the
focal point to the cursor and adds `deltaY * (-wheelSensitivity)` to the
scale velocity, so `deltaY = -100` at sensitivity `0.0001` adds exactly
`+0.01`; a wheel event on an interactive target leaves the state untouched. -/
theorem C5_wheel (cfg : MovementConfig) (st : CanvasState)
    (deltaY cx cy : ℚ) :
    ((onWheel cfg st false deltaY cx cy).isDragging = st.isDragging ∧
     (onWheel cfg st false deltaY cx cy).isPinching = st.isPinching ∧
     (onWheel cfg st false deltaY cx cy).scaleVelocity
        = st.scaleVelocity + deltaY * -cfg.wheelSensitivity ∧
     (onWheel cfg st false deltaY cx cy).lastZoomFocalX = cx ∧
     (onWheel cfg st false deltaY cx cy).lastZoomFocalY = cy) ∧
    (onWheel cfg st true deltaY cx cy) = st ∧
    (onWheel defaultConfig panningState false (-100) 400 300).scaleVelocity
        = 1/100 := by
  refine ⟨⟨rfl, rfl, rfl, rfl, rfl⟩, rfl, ?_⟩
  norm_num [onWheel, panningState, initialState, defaultConfig,
    createMovementConfig]

/-- C5 counterexample: a wheel event during a live pan leaves `isDragging`
true (the source never sets Panning to Idle on wheel), and a wheel event
during a live pinch is accepted (the scale velocity gains the impulse) —
both contradicting the claimed gesture-state handling. -/
theorem C5_counterexample :
    (onWheel defaultConfig panningState false (-100) 400 300).isDragging
        = true ∧
    (onWheel defaultConfig { initialState with isPinching := true }
        false (-100) 400 300).scaleVelocity = 1/100 := by
  constructor
  · rfl
  · norm_num [onWheel, initialState, defaultConfig, createMovementConfig]

/-- C6 (amended): a primary-button mouse down (and a single-touch start)
outside the interactive-exclusion regions enters Panning, zeroes both pan
velocity components and the in-flight scale velocity, and records the drag
anchor `lastTranslate = translate`; the pan target is left unchanged — the
source does not synchronize `target` to `translate` on pointer down. -/
theorem C6_enter_panning (st : CanvasState) (cx cy : ℚ) :
    ((onMouseDown st 0 false cx cy).isDragging = true ∧
     (onMouseDown st 0 false cx cy).velocityX = 0 ∧
     (onMouseDown st 0 false cx cy).velocityY = 0 ∧
     (onMouseDown st 0 false cx cy).scaleVelocity = 0 ∧
     (onMouseDown st 0 false cx cy).lastTranslateX = st.translateX ∧
     (onMouseDown st 0 false cx cy).lastTranslateY = st.translateY ∧
     (onMouseDown st 0 false cx cy).targetX = st.targetX ∧
     (onMouseDown st 0 false cx cy).targetY = st.targetY) ∧
    (∀ hypot : ℚ → ℚ → ℚ,
     (onTouchStart hypot st false [(cx, cy)]).isDragging = true ∧
     (onTouchStart hypot st false [(cx, cy)]).velocityX = 0 ∧
     (onTouchStart hypot st false [(cx, cy)]).velocityY = 0 ∧
     (onTouchStart hypot st false [(cx, cy)]).scaleVelocity = 0 ∧
     (onTouchStart hypot st false [(cx, cy)]).lastTranslateX = st.translateX ∧
     (onTouchStart hypot st false [(cx, cy)]).lastTranslateY = st.translateY ∧
     (onTouchStart hypot st false [(cx, cy)]).targetX = st.targetX ∧
     (onTouchStart hypot st false [(cx, cy)]).targetY = st.targetY) := by
  constructor
  · exact ⟨rfl, rfl, rfl, rfl, rfl, rfl, rfl, rfl⟩
  · intro hypot
    exact ⟨rfl, rfl, rfl, rfl, rfl, rfl, rfl, rfl⟩

/-- C6 counterexample: a mouse down on a state whose pan target (100) had
drifted from its translation (0) enters Panning with the target still at
100 — the claimed `targetX == translateX` after the down event fails. -/
theorem C6_counterexample :
    (onMouseDown staleTargetState 0 false 10 20).isDragging = true ∧
    (onMouseDown staleTargetState 0 false 10 20).targetX
        ≠ (onMouseDown staleTargetState 0 false 10 20).translateX := by
  constructor
  · rfl
  · norm_num [onMouseDown, staleTargetState, initialState]

/-- C7: the pan rubber-band response with fixed stiffness in (0,1) and
ordered bounds is monotonically non-decreasing, is the identity on
`[min, max]`, and fixes both bounds. -/
theorem C7_rubber_band (stiffness lo hi : ℚ) (h0 : 0 < stiffness)
    (h1 : stiffness < 1) (hlh : lo ≤ hi) :
    (∀ r1 r2 : ℚ, r1 ≤ r2 →
      applyRubberBand stiffness r1 lo hi
          ≤ applyRubberBand stiffness r2 lo hi) ∧
    (∀ r : ℚ, lo ≤ r → r ≤ hi → applyRubberBand stiffness r lo hi = r) ∧
    applyRubberBand stiffness lo lo hi = lo ∧
    applyRubberBand stiffness hi lo hi = hi := by
  refine ⟨?_, ?_, ?_, ?_⟩
  · intro r1 r2 h12
    unfold applyRubberBand
    split_ifs <;> nlinarith
  · intro r hr1 hr2
    unfold applyRubberBand
    split_ifs <;> first | rfl | linarith
  · unfold applyRubberBand
    split_ifs <;> first | rfl | linarith
  · unfold applyRubberBand
    split_ifs <;> first | rfl | linarith

/-- C7 witness: the default preset stiffness 0.85 on the band `[0, 1]`
fixes both bounds. -/
theorem C7_witness :
    applyRubberBand (85/100) 0 0 1 = 0 ∧ applyRubberBand (85/100) 1 0 1 = 1 :=
  ⟨(C7_rubber_band (85/100) 0 1 (by norm_num) (by norm_num)
      (by norm_num)).2.2.1,
   (C7_rubber_band (85/100) 0 1 (by norm_num) (by norm_num)
      (by norm_num)).2.2.2⟩

/-- C8 (amended): when the container element is unavailable,
`getViewportBounds` returns the degenerate rectangle `{0, 0, 0, 0}` for
every scale, so an idle pan step clamps toward the origin — springing the
translation toward `(0, 0)` with the usual stiffness and friction instead
of leaving it unchanged — while the scale state is untouched by the pan
step; no division by the viewport size ever occurs. -/
theorem C8_no_container (cfg : MovementConfig) (st : CanvasState)
    (hd : st.isDragging = false) :
    (∀ s : ℚ, getViewportBounds cfg none s
        = { minX := 0, maxX := 0, minY := 0, maxY := 0 }) ∧
    panClampedX cfg none st = max 0 (min 0 st.translateX) ∧
    panClampedY cfg none st = max 0 (min 0 st.translateY) ∧
    panStepVelX cfg none st
        = (st.velocityX + (max 0 (min 0 st.translateX) - st.translateX)
            * cfg.physics.snapBackStiffness) * cfg.physics.panFriction ∧
    (updatePanPhysics cfg none st).1.scale = st.scale ∧
    (updatePanPhysics cfg none st).1.targetScale = st.targetScale ∧
    (updatePanPhysics defaultConfig none offsetState).1.translateX = 477/5 := by
  refine ⟨fun s => rfl, rfl, rfl, rfl, ?_, ?_, ?_⟩
  · simp only [updatePanPhysics, hd, Bool.false_eq_true, if_false]
    split_ifs <;> rfl
  · simp only [updatePanPhysics, hd, Bool.false_eq_true, if_false]
    split_ifs <;> rfl
  · norm_num [updatePanPhysics, panClampedX, panClampedY, panStepVelX,
      panStepVelY, getViewportBounds, offsetState, initialState,
      defaultConfig, createMovementConfig, physicsProfiles, abs_lt]

/-- C8 counterexample: with the container unavailable, an idle step from
translation 100 moves the translation (to 95.4) — refuting the claim that
the physics step is a no-op on the translation state. -/
theorem C8_counterexample :
    (updatePanPhysics defaultConfig none offsetState).1.translateX ≠ 100 := by
  norm_num [updatePanPhysics, panClampedX, panClampedY, panStepVelX,
    panStepVelY, getViewportBounds, offsetState, initialState, defaultConfig,
    createMovementConfig, physicsProfiles, abs_lt]

/-- C8 witness: the no-container behaviour instantiated at the concrete
idle state translated to 100. -/
theorem C8_witness :
    (updatePanPhysics defaultConfig none offsetState).1.scale
        = offsetState.scale :=
  (C8_no_container defaultConfig offsetState rfl).2.2.2.2.1

/-- C9: for every configuration, container and scale — with no sign or
magnitude restrictions — the bounds rectangle is well ordered
(`minX ≤ maxX`, `minY ≤ maxY`), so the idle pan clamp
`max(min, min(max, x))` always lands inside the non-empty interval. -/
theorem C9_bounds_ordered (cfg : MovementConfig) (container : Option (ℚ × ℚ))
    (s : ℚ) :
    (getViewportBounds cfg container s).minX
        ≤ (getViewportBounds cfg container s).maxX ∧
    (getViewportBounds cfg container s).minY
        ≤ (getViewportBounds cfg container s).maxY ∧
    (∀ x : ℚ,
      (getViewportBounds cfg container s).minX
          ≤ max (getViewportBounds cfg container s).minX
              (min (getViewportBounds cfg container s).maxX x) ∧
      max (getViewportBounds cfg container s).minX
          (min (getViewportBounds cfg container s).maxX x)
          ≤ (getViewportBounds cfg container s).maxX) ∧
    (∀ y : ℚ,
      (getViewportBounds cfg container s).minY
          ≤ max (getViewportBounds cfg container s).minY
              (min (getViewportBounds cfg container s).maxY y) ∧
      max (getViewportBounds cfg container s).minY
          (min (getViewportBounds cfg container s).maxY y)
          ≤ (getViewportBounds cfg container s).maxY) := by
  have hx : (getViewportBounds cfg container s).minX
      ≤ (getViewportBounds cfg container s).maxX := by
    match container with
    | none => simp [getViewportBounds]
    | some (W, H) =>
      simp only [getViewportBounds]
      split_ifs <;> simp_all <;> linarith
  have hy : (getViewportBounds cfg container s).minY
      ≤ (getViewportBounds cfg container s).maxY := by
    match container with
    | none => simp [getViewportBounds]
    | some (W, H) =>
      simp only [getViewportBounds]
      split_ifs <;> simp_all <;> linarith
  refine ⟨hx, hy, ?_, ?_⟩
  · intro x
    exact ⟨le_max_left _ _, max_le hx (min_le_left _ _)⟩
  · intro y
    exact ⟨le_max_left _ _, max_le hy (min_le_left _ _)⟩

/-- C10: whenever a zoom step runs its scale update (post-branch scale
velocity above the 0.00001 dead-band, or a live pinch), the pan target is
overwritten with the new translation on both axes at the end of the step. -/
theorem C10_zoom_syncs_target (cfg : MovementConfig) (st : CanvasState)
    (hcond : |zoomStepVelocity cfg st| > 1/100000 ∨ st.isPinching = true) :
    (updateZoomPhysics cfg st).1.targetX
        = (updateZoomPhysics cfg st).1.translateX ∧
    (updateZoomPhysics cfg st).1.targetY
        = (updateZoomPhysics cfg st).1.translateY := by
  simp only [updateZoomPhysics, if_pos hcond]
  split_ifs <;> exact ⟨rfl, rfl⟩

/-- C10 witness: the target/translate synchronization instantiated at the
concrete pinch step with focal point (400, 300). -/
theorem C10_witness :
    (updateZoomPhysics defaultConfig pinchWitnessState).1.targetX
        = (updateZoomPhysics defaultConfig pinchWitnessState).1.translateX ∧
    (updateZoomPhysics defaultConfig pinchWitnessState).1.targetY
        = (updateZoomPhysics defaultConfig pinchWitnessState).1.translateY :=
  C10_zoom_syncs_target defaultConfig pinchWitnessState (Or.inr rfl)

end FlowerPower
